import Mathlib

/-!
Shallow embedding of the Go backend (Mariio-Chat-Beta `main.go`, the file
`src/unnamed/part_000`): a chat relay that routes a parsed request to either
text chat, vision chat, or an image-generation fallback loop over a fixed
list of candidate models.  Network effects (HTTP GET/POST, JSON parsing of
upstream bodies, content sniffing) are modelled as oracle functions carried
in environment structures; everything else is translated directly from the
source.  Machine strings are Lean `String`s over `Char`; Go operates on
UTF-8 bytes, and for the ASCII literals compared in this program the two
coincide (`strings.ToLower`, `strings.Contains`, `strings.HasPrefix` agree
with the character-level versions below on ASCII needles, since an ASCII
byte never occurs inside a multi-byte UTF-8 rune).
-/

/-! ### Go string primitives -/

/-- Character-level `strings.ToLower` (Go lowers each rune; on the ASCII
literals this program compares, `Char.toLower` agrees). -/
def toLowerStr (s : String) : String :=
  String.mk (s.data.map Char.toLower)

/-- Character-level `strings.Contains hay sub`: some suffix of `hay` has
`sub` as a prefix.  `strings.Contains s "" = true`, matched here. -/
def hasSub (sub : List Char) : List Char → Bool
  | [] => sub.isEmpty
  | c :: t => sub.isPrefixOf (c :: t) || hasSub sub t

/-- `strings.Contains` on strings. -/
def strContains (s sub : String) : Bool :=
  hasSub sub.data s.data

/-- Character-level `strings.HasPrefix s pre`. -/
def strStarts (s pre : String) : Bool :=
  pre.data.isPrefixOf s.data

/-- Go `filepath.Ext`: scan backwards from the end of the path; stop at a
path separator with result `""`, or return the suffix starting at the first
`.` found.  `extScan` receives the reversed character list and the
already-collected suffix. -/
def extScan : List Char → List Char → List Char
  | [], _ => []
  | c :: rest, acc =>
    if c = '/' then []
    else if c = '.' then c :: acc
    else extScan rest (c :: acc)

/-- Go `filepath.Ext` on a string. -/
def filepathExt (s : String) : String :=
  String.mk (extScan s.data.reverse [])

/-! ### Base64 (Go `base64.StdEncoding.EncodeToString`) -/

/-- The standard base64 alphabet. -/
def b64Alphabet : List Char :=
  "ABCDEFGHIJKLMNOPQRSTUVWXYZabcdefghijklmnopqrstuvwxyz0123456789+/".data

/-- Character for a 6-bit group. -/
def b64Char (n : Nat) : Char :=
  b64Alphabet.getD n '='

/-- Encode bytes three at a time into four base64 characters, padding the
final group with `=` as in Go's `StdEncoding`. -/
def base64Chunks : List Nat → List Char
  | [] => []
  | [a] => [b64Char (a / 4), b64Char (a % 4 * 16), '=', '=']
  | [a, b] => [b64Char (a / 4), b64Char (a % 4 * 16 + b / 16), b64Char (b % 16 * 4), '=']
  | a :: b :: c :: rest =>
    b64Char (a / 4) :: b64Char (a % 4 * 16 + b / 16) ::
      b64Char (b % 16 * 4 + c / 64) :: b64Char (c % 64) :: base64Chunks rest

/-- Go `base64.StdEncoding.EncodeToString`. -/
def base64Encode (bytes : List Nat) : String :=
  String.mk (base64Chunks bytes)

/-! ### Data model (`MessagePart`, `Message`, `ChatResponse`) -/

/-- Go `MessagePart`: a part of a chat message (text or base64 image data). -/
structure MessagePart where
  text : String
  mimeType : String
  data : String
deriving Repr, DecidableEq

/-- Go `Message`: one chat turn. -/
structure Message where
  role : String
  parts : List MessagePart
deriving Repr, DecidableEq

/-- Go `ChatResponse`: the envelope returned to the client. -/
structure ChatResponse where
  response : String
  imageBase64 : String
  error : String
deriving Repr, DecidableEq

/-! ### Intent classifier (`detectImageGenerationRequest`) -/

/-- The fixed keyword list from `detectImageGenerationRequest`. -/
def imageKeywords : List String :=
  ["buat gambar", "buatkan gambar", "generate image", "create image",
   "draw", "gambar", "lukis", "ilustrasi", "sketch", "photo",
   "picture", "image of", "make a picture", "make an image"]

/-- Go `detectImageGenerationRequest`: lower-case the prompt and scan for
any keyword; then, if the history is non-empty, scan each part of the last
message the same way.  First match wins; otherwise false. -/
def detectImageGenerationRequest (prompt : String) (messages : List Message) : Bool :=
  let lp := toLowerStr prompt
  if imageKeywords.any (fun k => strContains lp k) then
    true
  else
    match messages.getLast? with
    | some lastMessage =>
        lastMessage.parts.any fun part =>
          imageKeywords.any fun k => strContains (toLowerStr part.text) k
    | none => false

/-! ### Upstream model gateway (Gemini, `handleTextChat` / `handleImageChat`)

The genai client is modelled as an oracle `GenaiEnv.generateContent` from
the request parts to either a provider error message or a response holding
candidate completions. -/

/-- A `genai.Part` sent to or received from the model: `genai.Text`,
`genai.ImageData` (a blob with MIME type and bytes), or any other part
kind (whose content the extraction code never inspects). -/
inductive GPart where
  | text (s : String)
  | blob (mime : String) (bytes : List Nat)
  | otherKind
deriving Repr, DecidableEq

/-- One candidate completion: the parts of `Candidate.Content`. -/
structure Candidate where
  parts : List GPart
deriving Repr, DecidableEq

/-- A `genai.GenerateContentResponse`. -/
structure GenResp where
  candidates : List Candidate
deriving Repr, DecidableEq

/-- Oracle for the Gemini model `gemini-1.5-flash`: a call with the given
parts either fails with the provider's error message or yields a response. -/
structure GenaiEnv where
  generateContent : List GPart → Except String GenResp

/-- The first part with non-empty text, or `""` — the inner loop of
`handleTextChat`'s prompt resolution. -/
def firstText : List MessagePart → String
  | [] => ""
  | p :: rest => if p.text ≠ "" then p.text else firstText rest

/-- Prompt resolution of `handleTextChat`: the `prompt` argument when
non-empty, else the first non-empty text part of the last message (if the
history is non-empty), else `""`. -/
def resolvePromptText (messages : List Message) (prompt : String) : String :=
  if prompt ≠ "" then prompt
  else
    match messages.getLast? with
    | some lastMsg => firstText lastMsg.parts
    | none => ""

/-- The parts `handleTextChat` sends upstream, or `none` when it fails
before calling the model. -/
def textChatRequest (messages : List Message) (prompt : String) : Option (List GPart) :=
  let promptText := resolvePromptText messages prompt
  if promptText = "" then none else some [GPart.text promptText]

/-- Response extraction shared by `handleTextChat` and `handleImageChat`:
the first part of the first candidate when it is a text part, else the
given fallback string — in every case a nil error. -/
def extractText (resp : GenResp) (fallback : String) : Except String String :=
  match resp.candidates with
  | [] => .ok fallback
  | c :: _ =>
    match c.parts with
    | GPart.text t :: _ => .ok t
    | _ => .ok fallback

/-- Go `handleTextChat`: resolve the prompt, fail with the no-content error
when it is empty, otherwise send a single text part and extract the reply. -/
def handleTextChat (env : GenaiEnv) (messages : List Message) (prompt : String) :
    Except String String :=
  let promptText := resolvePromptText messages prompt
  if promptText = "" then
    .error "no text content to send to Gemini"
  else
    match env.generateContent [GPart.text promptText] with
    | .error e => .error ("failed to generate content: " ++ e)
    | .ok resp => extractText resp "Maaf, saya tidak dapat menghasilkan respons saat ini."

/-- Go `handleImageChat`: text part (the prompt, or the fixed analysis
instruction when empty) followed by the image blob; same extraction rule
with its own fallback string. -/
def handleImageChat (env : GenaiEnv) (_messages : List Message) (imageData : List Nat)
    (mimeType prompt : String) : Except String String :=
  let parts :=
    if prompt ≠ "" then [GPart.text prompt]
    else [GPart.text "Analisis gambar ini dan jelaskan apa yang Anda lihat."]
  let parts := parts ++ [GPart.blob mimeType imageData]
  match env.generateContent parts with
  | .error e => .error ("failed to generate content with image: " ++ e)
  | .ok resp => extractText resp "Maaf, saya tidak dapat menganalisis gambar ini."

/-! ### Image generation fallback orchestrator (`generateImage`)

The Hugging Face inference API is modelled by `HFEnv`: `avail` is the
availability GET of `checkModelAvailability` (transport failure or a status
code); `post` is the generation POST, keyed by model name, the payload
built for it, and the attempt number (0 = first try, 1 = the single 503
retry); `jsonError` abstracts `json.Unmarshal(body, &errorResp)` followed
by the `errorResp["error"]` lookup, returning the rendered error value when
the body is a JSON object with an `error` field.  A transport-level `post`
failure also covers an `io.ReadAll` failure on the body (same control flow
in the source, a different diagnostic message). -/

/-- The generation payload: `{"inputs": prompt}`, with the fixed parameter
object `{"num_inference_steps": 25, "guidance_scale": 7.5}` attached
exactly when `withParams` is set. -/
structure GenPayload where
  inputs : String
  withParams : Bool
deriving Repr, DecidableEq

/-- An HTTP response from the inference endpoint: status code and raw body
bytes. -/
structure HFResponse where
  status : Nat
  body : List Nat
deriving Repr, DecidableEq

/-- Oracle for the Hugging Face API. -/
structure HFEnv where
  avail : String → Except String Nat
  post : String → GenPayload → Nat → Except String HFResponse
  jsonError : List Nat → Option String

/-- Observable actions of `generateImage`, in order: an availability probe,
a generation POST (with its payload and attempt number), or a cooldown
sleep of the given number of seconds. -/
inductive Event where
  | probe (model : String)
  | post (model : String) (payload : GenPayload) (attempt : Nat)
  | sleep (seconds : Nat)
deriving Repr, DecidableEq

/-- The failure recorded in `lastError` for one candidate, by source
branch. -/
inductive ImgError where
  | sendFailed (msg : String)
  | retryFailed (msg : String)
  | notFound (model : String)
  | unauthorized
  | rateLimited
  | statusFailed (model : String) (status : Nat) (body : List Nat)
  | modelError (model : String) (errVal : String)
  | tooShort (model : String)
deriving Repr, DecidableEq

/-- Go renders a byte slice with `%s` / `string(body)`; rendered here
character-wise. -/
def stringOfBytes (bytes : List Nat) : String :=
  String.mk (bytes.map Char.ofNat)

/-- The `fmt.Errorf` message recorded for each failure branch. -/
def imgErrorMsg : ImgError → String
  | .sendFailed msg => "failed to send request: " ++ msg
  | .retryFailed msg => "retry failed: " ++ msg
  | .notFound model => "model " ++ model ++ " not found"
  | .unauthorized => "unauthorized - invalid API key"
  | .rateLimited => "rate limit exceeded"
  | .statusFailed model status body =>
      "API request failed for model " ++ model ++ " with status " ++ toString status ++
        ": " ++ stringOfBytes body
  | .modelError model errVal => "model " ++ model ++ " returned error: " ++ errVal
  | .tooShort model => "response too short for model " ++ model

/-- `%v` of the final `lastError` (Go renders a nil error as `<nil>`). -/
def lastErrorMsg : Option ImgError → String
  | none => "<nil>"
  | some e => imgErrorMsg e

/-- The fixed candidate list of `generateImage`. -/
def models : List String :=
  ["black-forest-labs/FLUX.1-dev",
   "black-forest-labs/FLUX.1-schnell",
   "stabilityai/stable-diffusion-xl-base-1.0",
   "stabilityai/sdxl-turbo",
   "Lykon/DreamShaper",
   "prompthero/openjourney",
   "nitrosocke/Arcane-Diffusion",
   "runwayml/stable-diffusion-v1-5",
   "CompVis/stable-diffusion-v1-4",
   "stabilityai/stable-diffusion-2-1"]

/-- Go `checkModelAvailability`: a GET against the model URL; any request
or transport error yields false, else the check is `status == 200`. -/
def checkModelAvailability (env : HFEnv) (model : String) : Bool :=
  match env.avail model with
  | .error _ => false
  | .ok status => status == 200

/-- The probe loop of `generateImage`: walk the candidates in order,
probing each, and stop at the first one reporting ready; `""` (Go's
zero-value sentinel for `workingModel`) when none does.  Also returns the
probe events issued. -/
def probePhase (env : HFEnv) : List String → String × List Event
  | [] => ("", [])
  | m :: rest =>
    if checkModelAvailability env m then (m, [Event.probe m])
    else
      let r := probePhase env rest
      (r.1, Event.probe m :: r.2)

/-- The preferred (`workingModel`) choice: the first candidate probing
ready, or the head of the list (`models[0]`) when the sentinel survived. -/
def preferredModel (env : HFEnv) : String :=
  let w := (probePhase env models).1
  if w = "" then models.getD 0 "" else w

/-- The `modelsToTry` construction: start from `[workingModel]` and append
every candidate different from it, in list order. -/
def tryOrder (env : HFEnv) : List String :=
  models.foldl (fun acc m => if m = preferredModel env then acc else acc ++ [m])
    [preferredModel env]

/-- Payload construction: parameters are attached exactly for model names
containing `stable-diffusion` or `sdxl`. -/
def buildPayload (model prompt : String) : GenPayload :=
  { inputs := prompt
    withParams := strContains model "stable-diffusion" || strContains model "sdxl" }

/-- The checks applied to the response that survives the status triage
(`resp` after the 503-retry block and the 404/401/429 branches): non-200
status is recorded with its body; a JSON body with an `error` field is a
model error; a body under 100 bytes is too short; otherwise the body is
the image. -/
def classifyBody (env : HFEnv) (model : String) (r : HFResponse) :
    Except ImgError (List Nat) :=
  if r.status ≠ 200 then .error (.statusFailed model r.status r.body)
  else
    match env.jsonError r.body with
    | some errVal => .error (.modelError model errVal)
    | none =>
      if r.body.length < 100 then .error (.tooShort model)
      else .ok r.body

/-- One candidate's attempt in the generation loop: the first POST; on 503,
one sleep and one retry of the same request whose response replaces the
first; on 404/401/429 the corresponding recorded failure; otherwise the
body checks of `classifyBody`. -/
def tryModel (env : HFEnv) (prompt model : String) : Except ImgError (List Nat) :=
  match env.post model (buildPayload model prompt) 0 with
  | .error msg => .error (.sendFailed msg)
  | .ok r =>
    if r.status = 503 then
      match env.post model (buildPayload model prompt) 1 with
      | .error msg => .error (.retryFailed msg)
      | .ok r2 => classifyBody env model r2
    else if r.status = 404 then .error (.notFound model)
    else if r.status = 401 then .error .unauthorized
    else if r.status = 429 then .error .rateLimited
    else classifyBody env model r

/-- The events one candidate's attempt issues: the first POST, and after a
503 the fixed 20-second sleep followed by the one retry of the same
request. -/
def tryTrace (env : HFEnv) (prompt model : String) : List Event :=
  match env.post model (buildPayload model prompt) 0 with
  | .error _ => [Event.post model (buildPayload model prompt) 0]
  | .ok r =>
    if r.status = 503 then
      [Event.post model (buildPayload model prompt) 0, Event.sleep 20,
       Event.post model (buildPayload model prompt) 1]
    else [Event.post model (buildPayload model prompt) 0]

/-- The generation loop over `modelsToTry`, threading `lastError`: the
first successful body wins, a failing candidate records its error and the
loop advances.  Returns the result (on exhaustion, the final `lastError`)
and the events issued. -/
def genLoop (env : HFEnv) (prompt : String) :
    List String → Option ImgError → Except (Option ImgError) (List Nat) × List Event
  | [], lastError => (.error lastError, [])
  | m :: rest, _lastError =>
    match tryModel env prompt m with
    | .ok body => (.ok body, tryTrace env prompt m)
    | .error e =>
      let r := genLoop env prompt rest (some e)
      (r.1, tryTrace env prompt m ++ r.2)

/-- Go `generateImage`, instrumented with its event trace: probe phase,
then the generation loop over the try-order; a successful body is base64
encoded, exhaustion reports the last recorded error. -/
def generateImageT (env : HFEnv) (prompt : String) : Except String String × List Event :=
  let g := genLoop env prompt (tryOrder env) none
  (match g.1 with
   | .ok body => .ok (base64Encode body)
   | .error lastError =>
       .error ("all image generation models failed, last error: " ++ lastErrorMsg lastError),
   (probePhase env models).2 ++ g.2)

/-- Go `generateImage`: the returned value alone. -/
def generateImage (env : HFEnv) (prompt : String) : Except String String :=
  (generateImageT env prompt).1

/-! ### Request dispatcher (`handleChat` after input parsing)

HTTP/multipart parsing, CORS, and method checks are transport plumbing;
the dispatcher is modelled from the point where `handleChat` holds the
parsed `messages`, `prompt`, and optional uploaded image (filename and
bytes).  `sniff` abstracts `http.DetectContentType`; `clientErr` is the
result of `genai.NewClient` (`none` = a client was obtained). -/

/-- Everything `handleChat` consults beyond its parsed inputs. -/
structure ChatEnv where
  clientErr : Option String
  genai : GenaiEnv
  hf : HFEnv
  sniff : List Nat → String

/-- The MIME detection of `handleChat`: the lower-cased filename extension
picks a fixed type for `.jpg`/`.jpeg`/`.png`/`.gif`/`.webp`; any other
extension sniffs the content and falls back to `image/jpeg` when the sniff
is not an `image/` type. -/
def detectMime (sniff : List Nat → String) (filename : String) (imageData : List Nat) :
    String :=
  let ext := toLowerStr (filepathExt filename)
  if ext = ".jpg" ∨ ext = ".jpeg" then "image/jpeg"
  else if ext = ".png" then "image/png"
  else if ext = ".gif" then "image/gif"
  else if ext = ".webp" then "image/webp"
  else if strStarts (sniff imageData) "image/" then sniff imageData
  else "image/jpeg"

/-- Go `sendErrorResponse`: status code plus an envelope holding only the
error message. -/
def sendErrorResponse (errorMsg : String) (statusCode : Nat) : ChatResponse × Nat :=
  ({ response := "", imageBase64 := "", error := errorMsg }, statusCode)

/-- The fixed acknowledgement `handleChat` sets after a successful image
generation. -/
def imageAckText : String := "Saya telah membuat gambar sesuai permintaan Anda!"

/-- Go `handleChat` from the intent check onward: classify, then either
run the image-generation orchestrator (success sets the fixed
acknowledgement and the base64 image) or initialize the Gemini client and
dispatch to `handleImageChat`/`handleTextChat` by the presence of image
bytes; every error is wrapped by `sendErrorResponse` with status 500, and
a success is a 200 envelope with an empty error. -/
def handleChatCore (cenv : ChatEnv) (messages : List Message) (prompt : String)
    (image : Option (String × List Nat)) : ChatResponse × Nat :=
  if detectImageGenerationRequest prompt messages then
    match generateImage cenv.hf prompt with
    | .error e =>
        sendErrorResponse ("Failed to generate image: " ++ e) 500
    | .ok imageBase64 =>
        ({ response := imageAckText, imageBase64 := imageBase64, error := "" }, 200)
  else
    match cenv.clientErr with
    | some e => sendErrorResponse ("Failed to initialize Gemini client: " ++ e) 500
    | none =>
      let r :=
        match image with
        | some (filename, imageData) =>
            handleImageChat cenv.genai messages imageData
              (detectMime cenv.sniff filename imageData) prompt
        | none => handleTextChat cenv.genai messages prompt
      match r with
      | .error e => sendErrorResponse ("Failed to get response from Gemini: " ++ e) 500
      | .ok response =>
          ({ response := response, imageBase64 := "", error := "" }, 200)

/-! ### Derived characterizations and concrete environments

Definitions below are not source translations: they name quantities that
the source computes implicitly (the response a candidate's outcome is
judged on, the per-model POST count of a trace) and concrete environments
used to instantiate the theorems. -/

/-- The response one candidate is ultimately judged on: the first POST's
response, except that a 503 replaces it with the retry's response; `none`
when the judged request failed at the transport level. -/
def effectiveResp (env : HFEnv) (prompt model : String) : Option HFResponse :=
  match env.post model (buildPayload model prompt) 0 with
  | .error _ => none
  | .ok r =>
    if r.status = 503 then (env.post model (buildPayload model prompt) 1).toOption
    else some r

/-- Number of POST events for a given model in a trace. -/
def countPosts (model : String) (tr : List Event) : Nat :=
  tr.countP fun e =>
    match e with
    | .post m _ _ => m = model
    | _ => false

/-- How `handleChat` wraps a gateway result: errors through
`sendErrorResponse` with status 500, successes as a 200 envelope. -/
def wrapGemini (r : Except String String) : ChatResponse × Nat :=
  match r with
  | .error e => sendErrorResponse ("Failed to get response from Gemini: " ++ e) 500
  | .ok response => ({ response := response, imageBase64 := "", error := "" }, 200)

/-- A Gemini oracle answering every call with the same result. -/
def constGenai (r : Except String GenResp) : GenaiEnv :=
  { generateContent := fun _ => r }

/-- A plausible image body: 120 identical bytes. -/
def sampleBody : List Nat := List.replicate 120 7

/-- Hugging Face environment where no probe answers and every POST returns
a 200 with `sampleBody`. -/
def hfEnvOk : HFEnv :=
  { avail := fun _ => .error "connection refused"
    post := fun _ _ _ => .ok { status := 200, body := sampleBody }
    jsonError := fun _ => none }

/-- Hugging Face environment where no probe answers, every first POST is a
503 and every retry a 404. -/
def hfEnvRetry : HFEnv :=
  { avail := fun _ => .error "connection refused"
    post := fun _ _ attempt =>
      if attempt = 0 then .ok { status := 503, body := [] }
      else .ok { status := 404, body := [] }
    jsonError := fun _ => none }

/-- Hugging Face environment where every request fails outright. -/
def hfEnvDown : HFEnv :=
  { avail := fun _ => .error "connection refused"
    post := fun _ _ _ => .ok { status := 404, body := [] }
    jsonError := fun _ => none }

/-- Dispatcher environment built from `hfEnvOk` and a Gemini oracle with a
single echo candidate. -/
def chatEnvOk : ChatEnv :=
  { clientErr := none
    genai := constGenai (.ok { candidates := [{ parts := [GPart.text "Halo!"] }] })
    hf := hfEnvOk
    sniff := fun _ => "text/plain; charset=utf-8" }

/-! ### Helper lemmas -/

/-- A string append whose left side is non-empty is non-empty. -/
theorem append_ne_empty_left (a b : String) (h : a.data ≠ []) : a ++ b ≠ "" := by
  intro hab
  have h2 := congrArg String.data hab
  rw [String.data_append] at h2
  simp only [String.data] at h2
  rcases List.append_eq_nil.mp h2 with ⟨ha, _⟩
  exact h ha

/-- Claim C4: `detectImageGenerationRequest` returns true whenever the
lower-cased prompt contains a configured keyword, or any text part of the
last history message does; it returns false when neither does. -/
theorem detectImageGeneration_spec (prompt : String) (messages : List Message) :
    ((∃ k ∈ imageKeywords, strContains (toLowerStr prompt) k = true) →
        detectImageGenerationRequest prompt messages = true) ∧
    (∀ m, messages.getLast? = some m →
      (∃ p ∈ m.parts, ∃ k ∈ imageKeywords, strContains (toLowerStr p.text) k = true) →
        detectImageGenerationRequest prompt messages = true) ∧
    ((∀ k ∈ imageKeywords, strContains (toLowerStr prompt) k = false) →
     (∀ m, messages.getLast? = some m → ∀ p ∈ m.parts, ∀ k ∈ imageKeywords,
        strContains (toLowerStr p.text) k = false) →
        detectImageGenerationRequest prompt messages = false) := by
  refine ⟨?_, ?_, ?_⟩
  · rintro ⟨k, hk, hc⟩
    have h1 : imageKeywords.any (fun k => strContains (toLowerStr prompt) k) = true :=
      List.any_eq_true.mpr ⟨k, hk, hc⟩
    simp [detectImageGenerationRequest, h1]
  · rintro m hm ⟨p, hp, k, hk, hc⟩
    by_cases h1 : imageKeywords.any (fun k => strContains (toLowerStr prompt) k) = true
    · simp [detectImageGenerationRequest, h1]
    · simp only [detectImageGenerationRequest, h1, if_false, hm]
      exact List.any_eq_true.mpr ⟨p, hp, List.any_eq_true.mpr ⟨k, hk, hc⟩⟩
  · intro h1 h2
    have hany : imageKeywords.any (fun k => strContains (toLowerStr prompt) k) = false := by
      rw [List.any_eq_false]
      intro k hk
      simp [h1 k hk]
    simp only [detectImageGenerationRequest, hany, Bool.false_eq_true, if_false]
    cases hg : messages.getLast? with
    | none => rfl
    | some m =>
      show (m.parts.any fun part =>
        imageKeywords.any fun k => strContains (toLowerStr part.text) k) = false
      rw [List.any_eq_false]
      intro p hp
      rw [Bool.not_eq_true, List.any_eq_false]
      intro k hk
      simp [h2 m hg p hp k hk]

/-- Witness for claim C4 at a concrete generation prompt. -/
theorem detectImageGeneration_spec_witness :
    detectImageGenerationRequest "Buatkan GAMBAR kucing" [] = true :=
  (detectImageGeneration_spec "Buatkan GAMBAR kucing" []).1
    ⟨"gambar", by decide, by decide⟩

/-- Claim C10: the MIME type `handleChat` computes for an uploaded file
always begins with `image/`; the five known extensions (case-insensitive)
map to their fixed types, and any other extension is resolved by sniffing,
with `image/jpeg` as the fallback for a non-image sniff. -/
theorem detectMime_spec (sniff : List Nat → String) (filename : String)
    (imageData : List Nat) :
    strStarts (detectMime sniff filename imageData) "image/" = true ∧
    (toLowerStr (filepathExt filename) = ".jpg" ∨ toLowerStr (filepathExt filename) = ".jpeg" →
        detectMime sniff filename imageData = "image/jpeg") ∧
    (toLowerStr (filepathExt filename) = ".png" →
        detectMime sniff filename imageData = "image/png") ∧
    (toLowerStr (filepathExt filename) = ".gif" →
        detectMime sniff filename imageData = "image/gif") ∧
    (toLowerStr (filepathExt filename) = ".webp" →
        detectMime sniff filename imageData = "image/webp") ∧
    (toLowerStr (filepathExt filename) ≠ ".jpg" →
     toLowerStr (filepathExt filename) ≠ ".jpeg" →
     toLowerStr (filepathExt filename) ≠ ".png" →
     toLowerStr (filepathExt filename) ≠ ".gif" →
     toLowerStr (filepathExt filename) ≠ ".webp" →
        detectMime sniff filename imageData =
          (if strStarts (sniff imageData) "image/" then sniff imageData
           else "image/jpeg")) := by
  refine ⟨?_, ?_, ?_, ?_, ?_, ?_⟩
  · unfold detectMime
    by_cases h1 : toLowerStr (filepathExt filename) = ".jpg" ∨
        toLowerStr (filepathExt filename) = ".jpeg"
    · rw [if_pos h1]; decide
    · rw [if_neg h1]
      by_cases h2 : toLowerStr (filepathExt filename) = ".png"
      · rw [if_pos h2]; decide
      · rw [if_neg h2]
        by_cases h3 : toLowerStr (filepathExt filename) = ".gif"
        · rw [if_pos h3]; decide
        · rw [if_neg h3]
          by_cases h4 : toLowerStr (filepathExt filename) = ".webp"
          · rw [if_pos h4]; decide
          · rw [if_neg h4]
            by_cases h5 : strStarts (sniff imageData) "image/" = true
            · rw [if_pos h5]; exact h5
            · rw [if_neg h5]; decide
  · intro h
    unfold detectMime
    rw [if_pos h]
  · intro h
    unfold detectMime
    rw [if_neg (by rw [h]; rintro (hc | hc) <;> exact absurd hc (by decide)), if_pos h]
  · intro h
    unfold detectMime
    rw [if_neg (by rw [h]; rintro (hc | hc) <;> exact absurd hc (by decide)),
        if_neg (by rw [h]; exact (by decide)), if_pos h]
  · intro h
    unfold detectMime
    rw [if_neg (by rw [h]; rintro (hc | hc) <;> exact absurd hc (by decide)),
        if_neg (by rw [h]; exact (by decide)), if_neg (by rw [h]; exact (by decide)),
        if_pos h]
  · intro h1 h2 h3 h4 h5
    unfold detectMime
    rw [if_neg (by rintro (hc | hc); exact h1 hc; exact h2 hc),
        if_neg h3, if_neg h4, if_neg h5]

/-- Witness for claim C10 at a concrete upload. -/
theorem detectMime_spec_witness :
    detectMime (fun _ => "text/plain; charset=utf-8") "photo.PNG" [1, 2, 3] = "image/png" :=
  (detectMime_spec (fun _ => "text/plain; charset=utf-8") "photo.PNG" [1, 2, 3]).2.2.1
    (by decide)

/-- When every part of a list has empty text, `firstText` is empty. -/
theorem firstText_all_empty (parts : List MessagePart)
    (h : ∀ p ∈ parts, p.text = "") : firstText parts = "" := by
  induction parts with
  | nil => rfl
  | cons p rest ih =>
    have hp : p.text = "" := h p (List.mem_cons_self p rest)
    unfold firstText
    rw [hp, if_neg (by simp)]
    exact ih fun q hq => h q (List.mem_cons_of_mem p hq)

/-- Claim C6: `handleTextChat` resolves the effective prompt to the prompt
argument when non-empty, else to the first non-empty text part of the last
message; with an empty prompt and no non-empty text part in the last
message (or no history at all) it fails with the no-content error and
issues no upstream call. -/
theorem handleTextChat_noContent (messages : List Message) (prompt : String)
    (h1 : prompt = "")
    (h2 : ∀ m, messages.getLast? = some m → ∀ p ∈ m.parts, p.text = "") :
    (∀ env, handleTextChat env messages prompt =
        .error "no text content to send to Gemini") ∧
    textChatRequest messages prompt = none ∧
    (∀ (msgs : List Message) (p : String), p ≠ "" → resolvePromptText msgs p = p) ∧
    (∀ (msgs : List Message) (m : Message), msgs.getLast? = some m →
        resolvePromptText msgs "" = firstText m.parts) := by
  have hres : resolvePromptText messages prompt = "" := by
    subst h1
    unfold resolvePromptText
    rw [if_neg (by simp)]
    cases hg : messages.getLast? with
    | none => rfl
    | some m => exact firstText_all_empty m.parts (h2 m hg)
  refine ⟨?_, ?_, ?_, ?_⟩
  · intro env
    unfold handleTextChat
    rw [hres]
    rfl
  · unfold textChatRequest
    rw [hres]
    rfl
  · intro msgs p hp
    unfold resolvePromptText
    rw [if_pos hp]
  · intro msgs m hm
    unfold resolvePromptText
    rw [if_neg (by simp), hm]

/-- Witness for claim C6: empty prompt and a last message with only an
empty text part. -/
theorem handleTextChat_noContent_witness :
    handleTextChat (constGenai (.ok { candidates := [] }))
        [{ role := "user", parts := [{ text := "", mimeType := "", data := "" }] }] "" =
      .error "no text content to send to Gemini" :=
  (handleTextChat_noContent
      [{ role := "user", parts := [{ text := "", mimeType := "", data := "" }] }] "" rfl
      (by intro m hm p hp; simp at hm; subst hm; simp at hp; rw [hp])).1
    (constGenai (.ok { candidates := [] }))

/-- Claim C9: `handleTextChat` depends only on the final history message —
histories agreeing on their last message produce the same upstream request
and the same result for every oracle; a non-empty prompt makes the history
irrelevant and sends exactly the prompt text. -/
theorem handleTextChat_lastOnly (m1 m2 : List Message) (prompt : String)
    (h : m1.getLast? = m2.getLast?) :
    textChatRequest m1 prompt = textChatRequest m2 prompt ∧
    (∀ env, handleTextChat env m1 prompt = handleTextChat env m2 prompt) ∧
    (prompt ≠ "" →
      textChatRequest m1 prompt = some [GPart.text prompt] ∧
      ∀ (env : GenaiEnv) (msgs : List Message),
        handleTextChat env msgs prompt = handleTextChat env m1 prompt) := by
  have hres : resolvePromptText m1 prompt = resolvePromptText m2 prompt := by
    unfold resolvePromptText
    rw [h]
  refine ⟨?_, ?_, ?_⟩
  · unfold textChatRequest
    rw [hres]
  · intro env
    unfold handleTextChat
    rw [hres]
  · intro hp
    have hr : ∀ msgs : List Message, resolvePromptText msgs prompt = prompt := by
      intro msgs
      unfold resolvePromptText
      rw [if_pos hp]
    constructor
    · unfold textChatRequest
      rw [hr, if_neg hp]
    · intro env msgs
      unfold handleTextChat
      rw [hr, hr]

/-- Witness for claim C9: two histories sharing a final message. -/
theorem handleTextChat_lastOnly_witness :
    handleTextChat (constGenai (.error "quota"))
        [{ role := "model", parts := [] }, { role := "user", parts := [{ text := "hi", mimeType := "", data := "" }] }] "" =
      handleTextChat (constGenai (.error "quota"))
        [{ role := "user", parts := [{ text := "hi", mimeType := "", data := "" }] }] "" :=
  (handleTextChat_lastOnly
      [{ role := "model", parts := [] }, { role := "user", parts := [{ text := "hi", mimeType := "", data := "" }] }]
      [{ role := "user", parts := [{ text := "hi", mimeType := "", data := "" }] }] ""
      (by decide)).2.1 (constGenai (.error "quota"))

/-- Claim C7: when the upstream call succeeds but the response has no
usable candidate (no candidates, an empty part list, or a first part that
is not text), both gateways return their fixed fallback apology with a nil
error. -/
theorem gateway_fallback (resp : GenResp)
    (h : resp.candidates = [] ∨ ∃ c rest, resp.candidates = c :: rest ∧
        (c.parts = [] ∨ ∃ q qs, c.parts = q :: qs ∧ ∀ t, q ≠ GPart.text t)) :
    (∀ messages prompt, resolvePromptText messages prompt ≠ "" →
        handleTextChat (constGenai (.ok resp)) messages prompt =
          .ok "Maaf, saya tidak dapat menghasilkan respons saat ini.") ∧
    (∀ messages imageData mimeType prompt,
        handleImageChat (constGenai (.ok resp)) messages imageData mimeType prompt =
          .ok "Maaf, saya tidak dapat menganalisis gambar ini.") := by
  have hext : ∀ fallback, extractText resp fallback = .ok fallback := by
    intro fallback
    rcases h with hnil | ⟨c, rest, hc, hparts⟩
    · unfold extractText
      rw [hnil]
    · unfold extractText
      rw [hc]
      show (match c.parts with
        | GPart.text t :: _ => Except.ok t
        | _ => Except.ok fallback) = Except.ok fallback
      rcases hparts with hpn | ⟨q, qs, hq, hnt⟩
      · rw [hpn]
      · rw [hq]
        cases q with
        | text t => exact absurd rfl (hnt t)
        | blob mime bytes => rfl
        | otherKind => rfl
  constructor
  · intro messages prompt hne
    unfold handleTextChat
    rw [if_neg hne]
    exact hext _
  · intro messages imageData mimeType prompt
    unfold handleImageChat
    exact hext _

/-- Witness for claim C7: an upstream response with zero candidates. -/
theorem gateway_fallback_witness :
    handleTextChat (constGenai (.ok { candidates := [] })) [] "hello" =
        .ok "Maaf, saya tidak dapat menghasilkan respons saat ini." ∧
    handleImageChat (constGenai (.ok { candidates := [] })) [] [9, 9] "image/png" "" =
        .ok "Maaf, saya tidak dapat menganalisis gambar ini." :=
  ⟨(gateway_fallback { candidates := [] } (Or.inl rfl)).1 [] "hello" (by decide),
   (gateway_fallback { candidates := [] } (Or.inl rfl)).2 [] [9, 9] "image/png" ""⟩


/-- Dispatch equation: a true classification with a successful generation
yields the acknowledgement envelope. -/
theorem handleChatCore_genOk (cenv : ChatEnv) (messages : List Message)
    (prompt : String) (image : Option (String × List Nat)) (b64 : String)
    (hd : detectImageGenerationRequest prompt messages = true)
    (hg : generateImage cenv.hf prompt = .ok b64) :
    handleChatCore cenv messages prompt image =
      ({ response := imageAckText, imageBase64 := b64, error := "" }, 200) := by
  unfold handleChatCore
  rw [if_pos hd, hg]

/-- Dispatch equation: a true classification with a failed generation
yields the wrapped generation error. -/
theorem handleChatCore_genErr (cenv : ChatEnv) (messages : List Message)
    (prompt : String) (image : Option (String × List Nat)) (e : String)
    (hd : detectImageGenerationRequest prompt messages = true)
    (hg : generateImage cenv.hf prompt = .error e) :
    handleChatCore cenv messages prompt image =
      sendErrorResponse ("Failed to generate image: " ++ e) 500 := by
  unfold handleChatCore
  rw [if_pos hd, hg]

/-- Dispatch equation: a false classification with a failed client
initialization yields the wrapped initialization error. -/
theorem handleChatCore_clientErr (cenv : ChatEnv) (messages : List Message)
    (prompt : String) (image : Option (String × List Nat)) (e : String)
    (hd : detectImageGenerationRequest prompt messages = false)
    (hc : cenv.clientErr = some e) :
    handleChatCore cenv messages prompt image =
      sendErrorResponse ("Failed to initialize Gemini client: " ++ e) 500 := by
  unfold handleChatCore
  rw [hd]
  simp only [Bool.false_eq_true, if_false]
  rw [hc]

/-- Dispatch equation: a false classification with image bytes present
routes to `handleImageChat` and wraps its result. -/
theorem handleChatCore_imageChat (cenv : ChatEnv) (messages : List Message)
    (prompt filename : String) (imageData : List Nat)
    (hd : detectImageGenerationRequest prompt messages = false)
    (hc : cenv.clientErr = none) :
    handleChatCore cenv messages prompt (some (filename, imageData)) =
      wrapGemini (handleImageChat cenv.genai messages imageData
        (detectMime cenv.sniff filename imageData) prompt) := by
  unfold handleChatCore
  rw [hd]
  simp only [Bool.false_eq_true, if_false]
  rw [hc]
  show (match handleImageChat cenv.genai messages imageData
      (detectMime cenv.sniff filename imageData) prompt with
    | Except.error e => sendErrorResponse ("Failed to get response from Gemini: " ++ e) 500
    | Except.ok response => ({ response := response, imageBase64 := "", error := "" }, 200)) =
    wrapGemini (handleImageChat cenv.genai messages imageData
      (detectMime cenv.sniff filename imageData) prompt)
  cases handleImageChat cenv.genai messages imageData
      (detectMime cenv.sniff filename imageData) prompt with
  | error e => rfl
  | ok response => rfl

/-- Dispatch equation: a false classification with no image routes to
`handleTextChat` and wraps its result. -/
theorem handleChatCore_textChat (cenv : ChatEnv) (messages : List Message)
    (prompt : String)
    (hd : detectImageGenerationRequest prompt messages = false)
    (hc : cenv.clientErr = none) :
    handleChatCore cenv messages prompt none =
      wrapGemini (handleTextChat cenv.genai messages prompt) := by
  unfold handleChatCore
  rw [hd]
  simp only [Bool.false_eq_true, if_false]
  rw [hc]
  show (match handleTextChat cenv.genai messages prompt with
    | Except.error e => sendErrorResponse ("Failed to get response from Gemini: " ++ e) 500
    | Except.ok response => ({ response := response, imageBase64 := "", error := "" }, 200)) =
    wrapGemini (handleTextChat cenv.genai messages prompt)
  cases handleTextChat cenv.genai messages prompt with
  | error e => rfl
  | ok response => rfl

/-- Claim C8: every envelope written to the client populates at most one
of the error and response fields: `sendErrorResponse` carries only the
message, and `handleChatCore` yields either a 200 envelope with an empty
error or a 500 envelope whose error is non-empty and whose response text
and image are empty. -/
theorem chatResponse_exclusive (cenv : ChatEnv) (messages : List Message)
    (prompt : String) (image : Option (String × List Nat)) :
    (∀ errorMsg statusCode, sendErrorResponse errorMsg statusCode =
        ({ response := "", imageBase64 := "", error := errorMsg }, statusCode)) ∧
    (((handleChatCore cenv messages prompt image).1.error = "" ∧
      (handleChatCore cenv messages prompt image).2 = 200) ∨
     ((handleChatCore cenv messages prompt image).1.response = "" ∧
      (handleChatCore cenv messages prompt image).1.imageBase64 = "" ∧
      (handleChatCore cenv messages prompt image).1.error ≠ "" ∧
      (handleChatCore cenv messages prompt image).2 = 500)) := by
  refine ⟨fun _ _ => rfl, ?_⟩
  cases hd : detectImageGenerationRequest prompt messages with
  | true =>
    cases hg : generateImage cenv.hf prompt with
    | error e =>
      rw [handleChatCore_genErr cenv messages prompt image e hd hg]
      right
      exact ⟨rfl, rfl, append_ne_empty_left "Failed to generate image: " e (by decide), rfl⟩
    | ok b64 =>
      rw [handleChatCore_genOk cenv messages prompt image b64 hd hg]
      exact Or.inl ⟨rfl, rfl⟩
  | false =>
    cases hc : cenv.clientErr with
    | some e =>
      rw [handleChatCore_clientErr cenv messages prompt image e hd hc]
      right
      exact ⟨rfl, rfl,
        append_ne_empty_left "Failed to initialize Gemini client: " e (by decide), rfl⟩
    | none =>
      cases image with
      | some fi =>
        obtain ⟨filename, imageData⟩ := fi
        rw [handleChatCore_imageChat cenv messages prompt filename imageData hd hc]
        cases handleImageChat cenv.genai messages imageData
            (detectMime cenv.sniff filename imageData) prompt with
        | error e =>
          right
          exact ⟨rfl, rfl,
            append_ne_empty_left "Failed to get response from Gemini: " e (by decide), rfl⟩
        | ok response => exact Or.inl ⟨rfl, rfl⟩
      | none =>
        rw [handleChatCore_textChat cenv messages prompt hd hc]
        cases handleTextChat cenv.genai messages prompt with
        | error e =>
          right
          exact ⟨rfl, rfl,
            append_ne_empty_left "Failed to get response from Gemini: " e (by decide), rfl⟩
        | ok response => exact Or.inl ⟨rfl, rfl⟩

/-- Claim C5: `handleChat` classifies intent first; a true classification
runs the orchestrator (success pairs the fixed acknowledgement with the
base64 image, failure is wrapped in the error envelope); a false one
routes to `handleImageChat` exactly when image bytes were supplied and to
`handleTextChat` otherwise, wrapping any error into the error envelope via
`wrapGemini`. -/
theorem handleChat_dispatch (cenv : ChatEnv) (messages : List Message)
    (prompt : String) (image : Option (String × List Nat)) :
    (detectImageGenerationRequest prompt messages = true →
      (∀ b64, generateImage cenv.hf prompt = .ok b64 →
        handleChatCore cenv messages prompt image =
          ({ response := imageAckText, imageBase64 := b64, error := "" }, 200)) ∧
      (∀ e, generateImage cenv.hf prompt = .error e →
        handleChatCore cenv messages prompt image =
          sendErrorResponse ("Failed to generate image: " ++ e) 500)) ∧
    (detectImageGenerationRequest prompt messages = false → cenv.clientErr = none →
      (∀ filename imageData, image = some (filename, imageData) →
        handleChatCore cenv messages prompt image =
          wrapGemini (handleImageChat cenv.genai messages imageData
            (detectMime cenv.sniff filename imageData) prompt)) ∧
      (image = none →
        handleChatCore cenv messages prompt image =
          wrapGemini (handleTextChat cenv.genai messages prompt))) := by
  constructor
  · intro hd
    exact ⟨fun b64 hg => handleChatCore_genOk cenv messages prompt image b64 hd hg,
           fun e hg => handleChatCore_genErr cenv messages prompt image e hd hg⟩
  · intro hd hc
    constructor
    · intro filename imageData himg
      rw [himg]
      exact handleChatCore_imageChat cenv messages prompt filename imageData hd hc
    · intro himg
      rw [himg]
      exact handleChatCore_textChat cenv messages prompt hd hc

set_option maxRecDepth 4000 in
/-- Witness for claim C5: a generation prompt against `chatEnvOk`, whose
orchestrator succeeds with the base64 of `sampleBody`. -/
theorem handleChat_dispatch_witness :
    handleChatCore chatEnvOk [] "buatkan gambar kucing" none =
      ({ response := imageAckText, imageBase64 := base64Encode sampleBody, error := "" },
       200) :=
  ((handleChat_dispatch chatEnvOk [] "buatkan gambar kucing" none).1 (by decide)).1
    (base64Encode sampleBody) rfl

/-- The probe loop returns the first candidate probing ready (with the
`""` sentinel when none does). -/
theorem probePhase_fst (env : HFEnv) (l : List String) :
    (probePhase env l).1 =
      (l.find? (fun m => checkModelAvailability env m)).getD "" := by
  induction l with
  | nil => rfl
  | cons m rest ih =>
    unfold probePhase
    by_cases h : checkModelAvailability env m = true
    · rw [if_pos h, List.find?_cons_of_pos rest h]
      rfl
    · rw [if_neg h, List.find?_cons_of_neg rest h]
      exact ih

/-- Probing issues no POST events. -/
theorem probePhase_no_posts (env : HFEnv) (model : String) (l : List String) :
    countPosts model (probePhase env l).2 = 0 := by
  induction l with
  | nil => rfl
  | cons m rest ih =>
    unfold probePhase
    by_cases h : checkModelAvailability env m = true
    · rw [if_pos h]
      rfl
    · rw [if_neg h]
      show countPosts model (Event.probe m :: (probePhase env rest).2) = 0
      unfold countPosts at ih ⊢
      rw [List.countP_cons]
      simp [ih]

/-- The `modelsToTry` fold appends exactly the candidates different from
the preferred one. -/
theorem foldl_append_filter (w : String) (l : List String) :
    ∀ acc, l.foldl (fun acc m => if m = w then acc else acc ++ [m]) acc =
      acc ++ l.filter (fun m => m ≠ w) := by
  induction l with
  | nil => intro acc; simp
  | cons m rest ih =>
    intro acc
    simp only [List.foldl_cons, List.filter_cons]
    by_cases h : m = w
    · rw [if_pos h, ih]
      simp [h]
    · rw [if_neg h, ih]
      simp [h]

/-- The try-order is the preferred model followed by the filtered list. -/
theorem tryOrder_eq (env : HFEnv) :
    tryOrder env =
      preferredModel env :: models.filter (fun m => m ≠ preferredModel env) := by
  unfold tryOrder
  rw [foldl_append_filter]
  rfl

/-- The preferred model is always a member of the fixed list. -/
theorem preferredModel_mem (env : HFEnv) : preferredModel env ∈ models := by
  unfold preferredModel
  rw [probePhase_fst]
  cases h : models.find? (fun m => checkModelAvailability env m) with
  | none =>
    show (if ("" : String) = "" then models.getD 0 "" else "") ∈ models
    rw [if_pos rfl]
    decide
  | some w =>
    have hw := List.mem_of_find?_eq_some h
    show (if w = "" then models.getD 0 "" else w) ∈ models
    by_cases hz : w = ""
    · rw [if_pos hz]
      decide
    · rw [if_neg hz]
      exact hw

/-- On the duplicate-free fixed list, filtering out one member equals
erasing it. -/
theorem models_filter_erase : ∀ w ∈ models,
    models.filter (fun m => m ≠ w) = models.erase w := by decide

/-- Claim C3: the probe phase selects the first candidate whose
availability check reports ready; when none does, the head of the fixed
list becomes preferred and the generation try-order is the whole list in
its original order; in every case the try-order is the preferred model
followed by the remaining candidates in original order with the preferred
model removed from its old position. -/
theorem generateImage_probe_order (env : HFEnv) :
    (∀ ms1 m ms2, models = ms1 ++ m :: ms2 →
      (∀ m' ∈ ms1, checkModelAvailability env m' = false) →
      checkModelAvailability env m = true →
      preferredModel env = m) ∧
    ((∀ m ∈ models, checkModelAvailability env m = false) →
      preferredModel env = "black-forest-labs/FLUX.1-dev" ∧ tryOrder env = models) ∧
    tryOrder env = preferredModel env :: models.erase (preferredModel env) := by
  refine ⟨?_, ?_, ?_⟩
  · intro ms1 m ms2 hsplit hfail hready
    have hfind : models.find? (fun m' => checkModelAvailability env m') = some m := by
      rw [hsplit, List.find?_append]
      have h1 : ms1.find? (fun m' => checkModelAvailability env m') = none :=
        List.find?_eq_none.mpr fun x hx => by rw [hfail x hx]; simp
      rw [h1, List.find?_cons_of_pos ms2 hready]
      rfl
    have hmem : m ∈ models := by
      rw [hsplit]
      exact List.mem_append_right _ (List.mem_cons_self m ms2)
    have hne : m ≠ "" := by
      intro hz
      rw [hz] at hmem
      revert hmem
      decide
    unfold preferredModel
    rw [probePhase_fst, hfind]
    show (if m = "" then models.getD 0 "" else m) = m
    rw [if_neg hne]
  · intro hall
    have hfind : models.find? (fun m => checkModelAvailability env m) = none :=
      List.find?_eq_none.mpr fun x hx => by rw [hall x hx]; simp
    have hpref : preferredModel env = "black-forest-labs/FLUX.1-dev" := by
      unfold preferredModel
      rw [probePhase_fst, hfind]
      rfl
    refine ⟨hpref, ?_⟩
    rw [tryOrder_eq, hpref]
    decide
  · rw [tryOrder_eq,
        models_filter_erase (preferredModel env) (preferredModel_mem env)]

/-- Witness for claim C3: with every availability check failing, the
preferred model is the list head and the try-order is the whole list. -/
theorem generateImage_probe_order_witness :
    preferredModel hfEnvDown = "black-forest-labs/FLUX.1-dev" ∧
    tryOrder hfEnvDown = models :=
  (generateImage_probe_order hfEnvDown).2.1 fun _ _ => rfl

/-- POST counts add over concatenated traces. -/
theorem countPosts_append (model : String) (t1 t2 : List Event) :
    countPosts model (t1 ++ t2) = countPosts model t1 + countPosts model t2 :=
  List.countP_append _ _ _

/-- Trace equation: a transport failure on the first POST leaves a single
POST event. -/
theorem tryTrace_err (env : HFEnv) (prompt m msg : String)
    (h0 : env.post m (buildPayload m prompt) 0 = .error msg) :
    tryTrace env prompt m = [Event.post m (buildPayload m prompt) 0] := by
  unfold tryTrace
  rw [h0]

/-- Trace equation: a 503 first response yields the first POST, the fixed
20-second sleep, and the one retry of the same request. -/
theorem tryTrace_503 (env : HFEnv) (prompt m : String) (r : HFResponse)
    (h0 : env.post m (buildPayload m prompt) 0 = .ok r) (h : r.status = 503) :
    tryTrace env prompt m =
      [Event.post m (buildPayload m prompt) 0, Event.sleep 20,
       Event.post m (buildPayload m prompt) 1] := by
  unfold tryTrace
  rw [h0]
  show (if r.status = 503 then
      [Event.post m (buildPayload m prompt) 0, Event.sleep 20,
       Event.post m (buildPayload m prompt) 1]
    else [Event.post m (buildPayload m prompt) 0]) = _
  rw [if_pos h]

/-- Trace equation: a non-503 first response leaves a single POST event. -/
theorem tryTrace_no503 (env : HFEnv) (prompt m : String) (r : HFResponse)
    (h0 : env.post m (buildPayload m prompt) 0 = .ok r) (h : r.status ≠ 503) :
    tryTrace env prompt m = [Event.post m (buildPayload m prompt) 0] := by
  unfold tryTrace
  rw [h0]
  show (if r.status = 503 then
      [Event.post m (buildPayload m prompt) 0, Event.sleep 20,
       Event.post m (buildPayload m prompt) 1]
    else [Event.post m (buildPayload m prompt) 0]) = _
  rw [if_neg h]

/-- One candidate's attempt posts at most twice, and posts only its own
model. -/
theorem countPosts_tryTrace (env : HFEnv) (prompt m model : String) :
    countPosts model (tryTrace env prompt m) ≤ 2 ∧
    (m ≠ model → countPosts model (tryTrace env prompt m) = 0) := by
  cases h0 : env.post m (buildPayload m prompt) 0 with
  | error msg =>
    rw [tryTrace_err env prompt m msg h0]
    constructor
    · by_cases hm : m = model <;> simp [countPosts, List.countP_cons, hm]
    · intro hm
      simp [countPosts, List.countP_cons, hm]
  | ok r =>
    by_cases h : r.status = 503
    · rw [tryTrace_503 env prompt m r h0 h]
      constructor
      · by_cases hm : m = model <;> simp [countPosts, List.countP_cons, hm]
      · intro hm
        simp [countPosts, List.countP_cons, hm]
    · rw [tryTrace_no503 env prompt m r h0 h]
      constructor
      · by_cases hm : m = model <;> simp [countPosts, List.countP_cons, hm]
      · intro hm
        simp [countPosts, List.countP_cons, hm]

/-- The generation loop posts each model at most twice per occurrence in
the candidate list. -/
theorem genLoop_countPosts (env : HFEnv) (prompt model : String) :
    ∀ (ms : List String) (le : Option ImgError),
      countPosts model (genLoop env prompt ms le).2 ≤ 2 * ms.count model := by
  intro ms
  induction ms with
  | nil =>
    intro le
    show countPosts model [] ≤ 2 * List.count model []
    simp [countPosts]
  | cons m rest ih =>
    intro le
    have hcount : (m :: rest).count model =
        rest.count model + if m = model then 1 else 0 := by
      rw [List.count_cons]
      by_cases hm : m = model <;> simp [hm]
    unfold genLoop
    cases htm : tryModel env prompt m with
    | ok body =>
      show countPosts model (tryTrace env prompt m) ≤ 2 * (m :: rest).count model
      rw [hcount]
      by_cases hm : m = model
      · subst hm
        have h1 := (countPosts_tryTrace env prompt m m).1
        rw [if_pos rfl]
        omega
      · rw [(countPosts_tryTrace env prompt m model).2 hm, if_neg hm]
        omega
    | error e =>
      show countPosts model
          (tryTrace env prompt m ++ (genLoop env prompt rest (some e)).2) ≤
        2 * (m :: rest).count model
      rw [countPosts_append, hcount]
      have h2 := ih (some e)
      by_cases hm : m = model
      · subst hm
        have h1 := (countPosts_tryTrace env prompt m m).1
        rw [if_pos rfl]
        omega
      · rw [(countPosts_tryTrace env prompt m model).2 hm, if_neg hm]
        omega

/-- The fixed candidate list has no duplicates. -/
theorem models_nodup : models.Nodup := by decide

/-- Every model occurs at most once in the try-order. -/
theorem tryOrder_count_le_one (env : HFEnv) (model : String) :
    (tryOrder env).count model ≤ 1 := by
  rw [tryOrder_eq, List.count_cons]
  have hfil : (models.filter (fun m => m ≠ preferredModel env)).count model ≤
      models.count model :=
    (List.filter_sublist models).count_le model
  have hmodels : models.count model ≤ 1 :=
    List.nodup_iff_count_le_one.mp models_nodup model
  by_cases hm : preferredModel env = model
  · have hzero : (models.filter (fun m => m ≠ preferredModel env)).count model = 0 := by
      rw [List.count_eq_zero]
      intro hmem
      have h3 := List.of_mem_filter hmem
      simp at h3
      exact h3 hm.symm
    rw [hzero]
    simp [hm]
  · have hb : (preferredModel env == model) = false := by
      simp [hm]
    rw [hb]
    simp only [Bool.false_eq_true, if_false]
    omega

/-- Claim C2: a 503 on a candidate's first POST causes exactly one fixed
20-second sleep and exactly one retry of the same request; no model is
ever POSTed more than twice in a whole `generateImage` run; and a retry
that is still not a 200 fails the candidate, advancing the loop to the
next one. -/
theorem generateImage_retry_budget (env : HFEnv) (prompt : String) :
    (∀ model r, env.post model (buildPayload model prompt) 0 = .ok r →
      r.status = 503 →
      tryTrace env prompt model =
        [Event.post model (buildPayload model prompt) 0, Event.sleep 20,
         Event.post model (buildPayload model prompt) 1]) ∧
    (∀ model, countPosts model (generateImageT env prompt).2 ≤ 2) ∧
    (∀ model r r2, env.post model (buildPayload model prompt) 0 = .ok r →
      r.status = 503 →
      env.post model (buildPayload model prompt) 1 = .ok r2 → r2.status ≠ 200 →
      ∃ e, tryModel env prompt model = .error e ∧
        ∀ (rest : List String) (le : Option ImgError),
          (genLoop env prompt (model :: rest) le).1 =
            (genLoop env prompt rest (some e)).1) := by
  refine ⟨?_, ?_, ?_⟩
  · intro model r h0 h503
    exact tryTrace_503 env prompt model r h0 h503
  · intro model
    show countPosts model
        ((probePhase env models).2 ++ (genLoop env prompt (tryOrder env) none).2) ≤ 2
    rw [countPosts_append, probePhase_no_posts]
    have h1 := genLoop_countPosts env prompt model (tryOrder env) none
    have h2 := tryOrder_count_le_one env model
    omega
  · intro model r r2 h0 h503 h1 hne
    have htm : tryModel env prompt model =
        .error (.statusFailed model r2.status r2.body) := by
      unfold tryModel
      rw [h0]
      show (if r.status = 503 then
          match env.post model (buildPayload model prompt) 1 with
          | Except.error msg => Except.error (ImgError.retryFailed msg)
          | Except.ok r2 => classifyBody env model r2
        else if r.status = 404 then Except.error (ImgError.notFound model)
        else if r.status = 401 then Except.error ImgError.unauthorized
        else if r.status = 429 then Except.error ImgError.rateLimited
        else classifyBody env model r) = _
      rw [if_pos h503, h1]
      show classifyBody env model r2 = _
      unfold classifyBody
      rw [if_pos hne]
    refine ⟨ImgError.statusFailed model r2.status r2.body, htm, fun rest le => ?_⟩
    unfold genLoop
    rw [htm]
    cases rest <;> rfl

/-- Witness for claim C2 against `hfEnvRetry` (every first POST 503, every
retry 404). -/
theorem generateImage_retry_budget_witness :
    tryTrace hfEnvRetry "kucing" "m" =
      [Event.post "m" (buildPayload "m" "kucing") 0, Event.sleep 20,
       Event.post "m" (buildPayload "m" "kucing") 1] ∧
    ∃ e, tryModel hfEnvRetry "kucing" "m" = .error e ∧
      ∀ (rest : List String) (le : Option ImgError),
        (genLoop hfEnvRetry "kucing" ("m" :: rest) le).1 =
          (genLoop hfEnvRetry "kucing" rest (some e)).1 :=
  ⟨(generateImage_retry_budget hfEnvRetry "kucing").1 "m"
      { status := 503, body := [] } rfl rfl,
   (generateImage_retry_budget hfEnvRetry "kucing").2.2 "m"
      { status := 503, body := [] } { status := 404, body := [] } rfl rfl rfl
      (by decide)⟩

/-- The body checks succeed exactly on a 200 response without a JSON
`error` field whose body is at least 100 bytes. -/
theorem classifyBody_ok_iff (env : HFEnv) (model : String) (r : HFResponse)
    (body : List Nat) :
    classifyBody env model r = .ok body ↔
      (r.status = 200 ∧ env.jsonError r.body = none ∧ 100 ≤ r.body.length ∧
       body = r.body) := by
  unfold classifyBody
  by_cases h200 : r.status = 200
  · rw [if_neg (by simp [h200])]
    cases hj : env.jsonError r.body with
    | some v =>
      constructor
      · intro hcon
        exact absurd hcon (by simp)
      · rintro ⟨-, hj2, -, -⟩
        cases hj2
    | none =>
      by_cases hlen : r.body.length < 100
      · rw [if_pos hlen]
        constructor
        · intro hcon
          exact absurd hcon (by simp)
        · rintro ⟨-, -, hge, -⟩
          omega
      · rw [if_neg hlen]
        constructor
        · intro hok
          have hb : r.body = body := by
            injection hok
          exact ⟨h200, rfl, by omega, hb.symm⟩
        · rintro ⟨-, -, -, hb⟩
          rw [hb]
  · rw [if_pos h200]
    constructor
    · intro hcon
      exact absurd hcon (by simp)
    · rintro ⟨h, -, -, -⟩
      exact absurd h h200

/-- A candidate attempt succeeds with `body` exactly when its effective
response (after the single 503 retry) is a 200 of at least 100 bytes with
no JSON `error` field, and `body` is that response's body. -/
theorem tryModel_ok_iff (env : HFEnv) (prompt : String) :
    ∀ model body, tryModel env prompt model = .ok body ↔
      ∃ r, effectiveResp env prompt model = some r ∧ r.status = 200 ∧
        env.jsonError r.body = none ∧ 100 ≤ r.body.length ∧ body = r.body := by
  intro model body
  unfold tryModel effectiveResp
  cases h0 : env.post model (buildPayload model prompt) 0 with
  | error msg => simp
  | ok r =>
    show (if r.status = 503 then
        match env.post model (buildPayload model prompt) 1 with
        | Except.error msg => Except.error (ImgError.retryFailed msg)
        | Except.ok r2 => classifyBody env model r2
      else if r.status = 404 then Except.error (ImgError.notFound model)
      else if r.status = 401 then Except.error ImgError.unauthorized
      else if r.status = 429 then Except.error ImgError.rateLimited
      else classifyBody env model r) = .ok body ↔
      ∃ r2, (if r.status = 503
          then (env.post model (buildPayload model prompt) 1).toOption
          else some r) = some r2 ∧ r2.status = 200 ∧
        env.jsonError r2.body = none ∧ 100 ≤ r2.body.length ∧ body = r2.body
    by_cases h503 : r.status = 503
    · rw [if_pos h503, if_pos h503]
      cases h1 : env.post model (buildPayload model prompt) 1 with
      | error msg => simp [Except.toOption]
      | ok r2 =>
        show classifyBody env model r2 = .ok body ↔ _
        rw [classifyBody_ok_iff]
        simp [Except.toOption]
    · rw [if_neg h503, if_neg h503]
      by_cases h404 : r.status = 404
      · rw [if_pos h404]
        constructor
        · intro hcon
          exact absurd hcon (by simp)
        · rintro ⟨r2, hr2, h200, -⟩
          cases hr2
          omega
      · rw [if_neg h404]
        by_cases h401 : r.status = 401
        · rw [if_pos h401]
          constructor
          · intro hcon
            exact absurd hcon (by simp)
          · rintro ⟨r2, hr2, h200, -⟩
            cases hr2
            omega
        · rw [if_neg h401]
          by_cases h429 : r.status = 429
          · rw [if_pos h429]
            constructor
            · intro hcon
              exact absurd hcon (by simp)
            · rintro ⟨r2, hr2, h200, -⟩
              cases hr2
              omega
          · rw [if_neg h429, classifyBody_ok_iff]
            constructor
            · rintro ⟨h200, hj, hlen, hb⟩
              exact ⟨r, rfl, h200, hj, hlen, hb⟩
            · rintro ⟨r2, hr2, h200, hj, hlen, hb⟩
              cases hr2
              exact ⟨h200, hj, hlen, hb⟩

/-- The generation loop stops at the first succeeding candidate: failing
prefixes contribute their traces and their errors, the successful model's
body is returned, and nothing after it is visited. -/
theorem genLoop_first_success (env : HFEnv) (prompt model : String)
    (body : List Nat) (ms2 : List String) :
    ∀ (ms1 : List String) (le : Option ImgError),
      (∀ m' ∈ ms1, ∃ e, tryModel env prompt m' = .error e) →
      tryModel env prompt model = .ok body →
      genLoop env prompt (ms1 ++ model :: ms2) le =
        (.ok body,
         (ms1.map (tryTrace env prompt)).flatten ++ tryTrace env prompt model) := by
  intro ms1
  induction ms1 with
  | nil =>
    intro le _ hok
    show genLoop env prompt (model :: ms2) le = _
    unfold genLoop
    rw [hok]
    simp
  | cons m' t ih =>
    intro le hfail hok
    obtain ⟨e, he⟩ := hfail m' (List.mem_cons_self m' t)
    show genLoop env prompt (m' :: (t ++ model :: ms2)) le = _
    unfold genLoop
    rw [he]
    show ((genLoop env prompt (t ++ model :: ms2) (some e)).1,
        tryTrace env prompt m' ++ (genLoop env prompt (t ++ model :: ms2) (some e)).2) = _
    rw [ih (some e) (fun x hx => hfail x (List.mem_cons_of_mem m' hx)) hok]
    simp [List.append_assoc]

/-- When every candidate fails, the loop returns the error recorded for
the final candidate. -/
theorem genLoop_all_fail (env : HFEnv) (prompt : String) :
    ∀ (ms : List String), ms ≠ [] →
      (∀ m ∈ ms, ∃ e, tryModel env prompt m = .error e) →
      ∀ le, ∃ mL e, ms.getLast? = some mL ∧ tryModel env prompt mL = .error e ∧
        (genLoop env prompt ms le).1 = .error (some e) := by
  intro ms
  induction ms with
  | nil => intro h; exact absurd rfl h
  | cons m rest ih =>
    intro _ hfail le
    obtain ⟨e, he⟩ := hfail m (List.mem_cons_self m rest)
    cases rest with
    | nil =>
      refine ⟨m, e, rfl, he, ?_⟩
      unfold genLoop
      rw [he]
      rfl
    | cons m2 t =>
      obtain ⟨mL, e2, hlast, htm, hres⟩ :=
        ih (by simp) (fun x hx => hfail x (List.mem_cons_of_mem m hx)) (some e)
      refine ⟨mL, e2, ?_, htm, ?_⟩
      · rw [List.getLast?_cons_cons]
        exact hlast
      · unfold genLoop
        rw [he]
        show (genLoop env prompt (m2 :: t) (some e)).1 = .error (some e2)
        exact hres

/-- Claim C1: `generateImage` returns the base64 encoding of the body of
the first candidate in try-order whose effective response is a 200 of at
least 100 bytes without a JSON `error` field, visiting no candidate after
it; and when every candidate in try-order fails, it returns the
exhaustion error carrying the failure recorded for the last candidate. -/
theorem generateImage_first_success (env : HFEnv) (prompt : String) :
    (∀ model body, tryModel env prompt model = .ok body ↔
      ∃ r, effectiveResp env prompt model = some r ∧ r.status = 200 ∧
        env.jsonError r.body = none ∧ 100 ≤ r.body.length ∧ body = r.body) ∧
    (∀ ms1 model ms2 body, tryOrder env = ms1 ++ model :: ms2 →
      (∀ m' ∈ ms1, ∃ e, tryModel env prompt m' = .error e) →
      tryModel env prompt model = .ok body →
      generateImageT env prompt =
        (.ok (base64Encode body),
         (probePhase env models).2 ++
           ((ms1.map (tryTrace env prompt)).flatten ++ tryTrace env prompt model))) ∧
    ((∀ m ∈ tryOrder env, ∃ e, tryModel env prompt m = .error e) →
      ∃ mL e, (tryOrder env).getLast? = some mL ∧
        tryModel env prompt mL = .error e ∧
        generateImage env prompt =
          .error ("all image generation models failed, last error: " ++
            imgErrorMsg e)) := by
  refine ⟨tryModel_ok_iff env prompt, ?_, ?_⟩
  · intro ms1 model ms2 body horder hfail hok
    unfold generateImageT
    rw [horder, genLoop_first_success env prompt model body ms2 ms1 none hfail hok]
  · intro hfail
    have hne : tryOrder env ≠ [] := by
      rw [tryOrder_eq]
      simp
    obtain ⟨mL, e, hlast, htm, hres⟩ :=
      genLoop_all_fail env prompt (tryOrder env) hne hfail none
    refine ⟨mL, e, hlast, htm, ?_⟩
    unfold generateImage generateImageT
    show (match (genLoop env prompt (tryOrder env) none).1 with
      | Except.ok body => Except.ok (base64Encode body)
      | Except.error lastError =>
          Except.error ("all image generation models failed, last error: " ++
            lastErrorMsg lastError)) = _
    rw [hres]
    rfl

/-- Witness for claim C1: with every candidate answering 404, the result
is the exhaustion error carrying the last candidate's recorded failure. -/
theorem generateImage_first_success_witness :
    ∃ mL e, (tryOrder hfEnvDown).getLast? = some mL ∧
      tryModel hfEnvDown "kucing" mL = .error e ∧
      generateImage hfEnvDown "kucing" =
        .error ("all image generation models failed, last error: " ++
          imgErrorMsg e) :=
  (generateImage_first_success hfEnvDown "kucing").2.2
    fun m _ => ⟨ImgError.notFound m, rfl⟩
